import Mathlib

/-!
Verification development for the exploration-data-checker repository
(`modules/file_scanner.py`, `modules/curve_validator.py`,
`modules/seismic_2d_validator.py`, `modules/seismic_3d_validator.py`).

The Python code is shallowly embedded: floating-point sample values are
modelled as an inductive `Sample` (either the IEEE NaN or an exact rational),
machine floats by exact rationals (ℚ) where the source only performs field
arithmetic and comparisons, and by ℝ where the source takes square roots,
logarithms or Fourier transforms.  Python exceptions are modelled with
`Except String`: a handle attribute or item access that may raise is an
`Except`-valued field, a `try/except` block is a `match` on those values.
Python `str.format` fixed-decimal rendering is modelled by `fmtFixed`
(round-half-even on the exact rational; the source rounds the decimal
expansion of the binary double, which differs only in ulp-boundary cases, and
renders `-0.00` with a sign, which is not modelled).  `os.path.join` is
modelled as POSIX `dirpath ++ "/" ++ filename`.
-/

namespace EDC

/-- A floating-point sample value: NaN, or an exact (finite) number.
Infinities are not modelled; no analysed code path distinguishes them. -/
inductive Sample where
  | nan : Sample
  | val (q : ℚ) : Sample
deriving DecidableEq

/-- `np.isnan` on a sample. -/
def Sample.isNanB : Sample → Bool
  | .nan => true
  | .val _ => false

/-- IEEE equality test `s == q` against a finite constant: NaN compares
unequal to everything. -/
def sampleEqQ (s : Sample) (q : ℚ) : Bool :=
  match s with
  | .nan => false
  | .val x => x == q

/-- The finite (non-NaN) values of a sample list, in order. -/
def realVals (t : List Sample) : List ℚ :=
  t.filterMap fun s => match s with | .nan => none | .val x => some x

/-- `np.all(trace == 0)`: every sample compares equal to zero (NaN does not). -/
def allZeroB (t : List Sample) : Bool := t.all fun s => sampleEqQ s 0

/-- `np.all(np.isnan(trace))`. -/
def allNaNB (t : List Sample) : Bool := t.all Sample.isNanB

/-- No sample of the trace is NaN. -/
def allRealB (t : List Sample) : Bool := t.all fun s => !s.isNanB

/-- `np.mean` of a rational list (0 on the empty list; callers guard
emptiness exactly where the source does). -/
def qmean (l : List ℚ) : ℚ := l.sum / l.length

/-- Population variance, `np.std(l) ** 2`. -/
def qvar (l : List ℚ) : ℚ := qmean (l.map fun x => (x - qmean l) ^ 2)

/-- `np.std(trace) < 1e-10` as evaluated by numpy: if the trace holds a NaN
(or is empty) the standard deviation is NaN and the comparison is False;
otherwise `std < 1e-10` iff the variance is below `1e-20` (both sides are
nonnegative, squaring is exact). -/
def stdLtB (t : List Sample) : Bool :=
  allRealB t && !t.isEmpty && decide (qvar (realVals t) < 1 / 10 ^ 20)

/-- Dead-trace test of `Seismic2DValidator._analyze_null_traces`
(line 266): `np.all(trace == 0) or np.all(np.isnan(trace)) or
np.std(trace) < 1e-10`. -/
def isDead2D (t : List Sample) : Bool := allZeroB t || allNaNB t || stdLtB t

/-- Dead-trace test of `Seismic3DValidator._count_null_traces`
(line 585): `np.all(trace == 0) or np.all(np.isnan(trace))`. -/
def isDeadCnt3D (t : List Sample) : Bool := allZeroB t || allNaNB t

/-- Dead-trace test of `Seismic3DValidator._extract_trace_quality`
(line 228): `np.all(traces == 0, axis=1)` — all-zero only. -/
def isDeadQual3D (t : List Sample) : Bool := allZeroB t

/-! ## Fixed-decimal formatting (`f"{x:.df}"`) -/

/-- Round a rational to the nearest integer, ties to even (the IEEE /
Python formatting rule). -/
def roundHalfEven (q : ℚ) : ℤ :=
  let f : ℤ := ⌊q⌋
  let r : ℚ := q - f
  if r < 1 / 2 then f
  else if 1 / 2 < r then f + 1
  else if f % 2 = 0 then f else f + 1

/-- Left-pad a string with zeros to the given length. -/
def padZeros (d : Nat) (s : String) : String :=
  String.mk (List.replicate (d - s.length) '0') ++ s

/-- `f"{q:.df}"` on an exact rational. -/
def fmtFixed (d : Nat) (q : ℚ) : String :=
  let m : ℤ := roundHalfEven (q * (10 : ℚ) ^ d)
  let a : Nat := m.natAbs
  let ip : Nat := a / 10 ^ d
  let fp : Nat := a % 10 ^ d
  (if m < 0 then "-" else "") ++ toString ip ++
    (if d = 0 then "" else "." ++ padZeros d (toString fp))

/-- `f"{x:.df}"` on a sample; NaN renders as `"nan"`. -/
def fmtS (d : Nat) (s : Sample) : String :=
  match s with
  | .nan => "nan"
  | .val q => fmtFixed d q

/-! ## File scanners (`modules/file_scanner.py`) -/

/-- One `os.walk` entry: `(dirpath, filenames)`.  The `dirnames` component
is ignored by the scanner loops and is not modelled. -/
abbrev WalkEntry := String × List String

/-- Substring test on character lists (`needle in hay` in Python; the empty
needle matches). -/
def hasSubChars : List Char → List Char → Bool
  | [], _ => true
  | _ :: _, [] => false
  | n, c :: cs => (n.isPrefixOf (c :: cs)) || hasSubChars n cs

/-- `str.upper()` (character-wise; kernel-reducible, unlike
`String.toUpper`). -/
def upperStr (s : String) : String := String.mk (s.data.map Char.toUpper)

/-- Python `needle in hay` on strings, case-folded to upper
(`needle.upper() in hay.upper()`). -/
def hasSubstrUpper (needle hay : String) : Bool :=
  hasSubChars (needle.data.map Char.toUpper) (hay.data.map Char.toUpper)

/-- `fn.lower().endswith(suffix)` (character-wise). -/
def endsLowerB (fn : String) (suffix : List Char) : Bool :=
  suffix.isSuffixOf (fn.data.map Char.toLower)

/-- Per-filename keep test of `LASFileScanner.find_all_las_files`
(lines 25–29): extension `.las` (case-insensitive), and the custom filter
only when `filter_enabled and filter_text` is truthy — an EMPTY filter text
disables the filter. -/
def keepLas (filterText : String) (filterEnabled : Bool) (fn : String) : Bool :=
  endsLowerB fn ".las".data &&
    (if filterEnabled && !filterText.data.isEmpty then
      hasSubstrUpper filterText fn
    else true)

/-- Per-filename keep test of `SEGYFileScanner.find_all_segy_files`
(lines 68–71): extension `.sgy` or `.segy`, same filter logic. -/
def keepSegy (filterText : String) (filterEnabled : Bool) (fn : String) : Bool :=
  (endsLowerB fn ".sgy".data || endsLowerB fn ".segy".data) &&
    (if filterEnabled && !filterText.data.isEmpty then
      hasSubstrUpper filterText fn
    else true)

/-- `LASFileScanner.find_all_las_files`: returns `[]` when the root is not a
directory, otherwise walks the tree and joins kept filenames to their
directories. -/
def find_all_las_files (isDir : Bool) (filterText : String) (filterEnabled : Bool)
    (walk : List WalkEntry) : List String :=
  if !isDir then []
  else walk.flatMap fun e =>
    (e.2.filter (keepLas filterText filterEnabled)).map fun fn => e.1 ++ "/" ++ fn

/-- `SEGYFileScanner.find_all_segy_files`. -/
def find_all_segy_files (isDir : Bool) (filterText : String) (filterEnabled : Bool)
    (walk : List WalkEntry) : List String :=
  if !isDir then []
  else walk.flatMap fun e =>
    (e.2.filter (keepSegy filterText filterEnabled)).map fun fn => e.1 ++ "/" ++ fn

/-- Spec-side definition (for comparison): every file with a matching `.las`
extension under the walk, no filtering. -/
def allLasByExtension (walk : List WalkEntry) : List String :=
  walk.flatMap fun e =>
    (e.2.filter fun fn => endsLowerB fn ".las".data).map fun fn => e.1 ++ "/" ++ fn

/-- Spec-side definition (for comparison): every file with a matching
`.sgy`/`.segy` extension under the walk, no filtering. -/
def allSegyByExtension (walk : List WalkEntry) : List String :=
  walk.flatMap fun e =>
    (e.2.filter fun fn => endsLowerB fn ".sgy".data || endsLowerB fn ".segy".data).map
      fun fn => e.1 ++ "/" ++ fn

/-! ## Curve validator (`modules/curve_validator.py`) -/

/-- The default null sentinel of `CurveValidator.__init__` (`-999.25`);
`app.py` constructs the validator with this default. -/
def nullDefault : ℚ := -999.25

/-- One curve of a LAS file: its mnemonic and (possibly absent or empty)
unit string. -/
structure CurveMeta where
  mnemonic : String
  unit : Option String
deriving DecidableEq

/-- A LAS handle.  `curvesE` models the `las.curves` enumeration (which may
raise for a broken handle, e.g. `None`); `dataE name` models
`np.array(las[name], dtype=float)`. -/
structure LASHandle where
  curvesE : Except String (List CurveMeta)
  dataE : String → Except String (List Sample)

/-- One entry of the curve configuration: alias list and description. -/
structure CurveInfo where
  aliases : List String
  description : String
deriving DecidableEq

/-- The curve configuration, an ordered mapping key ↦ info. -/
abbrev CurveConfig := List (String × CurveInfo)

/-- A per-curve validation result. -/
structure CurveResult where
  status : String
  reason : String
deriving DecidableEq

/-- The uppercased mnemonics of the file's curves — the keys of the
`available_curves` dict built at the top of `validate_las_file` /
`get_detailed_curve_info`. -/
def availOf (cs : List CurveMeta) : List String := cs.map fun c => upperStr c.mnemonic

/-- `CurveValidator._find_curve_alias` (lines 201–206): walk the alias list
in order, return the uppercase of the first alias present among the
available (uppercased) mnemonics. -/
def find_curve_alias : List String → List String → Option String
  | [], _ => none
  | a :: rest, avail =>
    if avail.contains (upperStr a) then some (upperStr a) else find_curve_alias rest avail

/-- `data[data != null_value]`: NaN samples compare unequal to the sentinel
and are therefore KEPT as valid. -/
def validOf (nv : ℚ) (data : List Sample) : List Sample :=
  data.filter fun s => !sampleEqQ s nv

/-- Minimum of a rational list. -/
def qlistMin : List ℚ → Option ℚ
  | [] => none
  | x :: xs => some (xs.foldl min x)

/-- Maximum of a rational list. -/
def qlistMax : List ℚ → Option ℚ
  | [] => none
  | x :: xs => some (xs.foldl max x)

/-- `np.nanmin`: minimum ignoring NaNs; NaN when no finite value exists
(numpy warns and yields NaN on an all-NaN input). -/
def nanminL (l : List Sample) : Sample :=
  match qlistMin (realVals l) with
  | some m => .val m
  | none => .nan

/-- `np.nanmax`. -/
def nanmaxL (l : List Sample) : Sample :=
  match qlistMax (realVals l) with
  | some m => .val m
  | none => .nan

/-- `CurveValidator._validate_curve_data` (lines 208–225): load the curve
(any exception is caught and reported), mask the sentinel, require one
unmasked sample, report the 2-decimal min–max range of the valid data. -/
def validateCurveData (las : LASHandle) (name : String) (nv : ℚ) : Bool × String :=
  match las.dataE name with
  | .error e => (false, "Error: " ++ e)
  | .ok data =>
    let valid := validOf nv data
    if valid.length = 0 then (false, "No valid data")
    else (true, "Valid (" ++ fmtS 2 (nanminL valid) ++ "-" ++ fmtS 2 (nanmaxL valid) ++ ")")

/-- Loop body of `validate_las_file` (lines 21–32) for a single configured
curve. -/
def validateEntryFor (las : LASHandle) (avail : List String) (nv : ℚ)
    (kv : String × CurveInfo) : String × CurveResult :=
  match find_curve_alias kv.2.aliases avail with
  | none => (kv.1, ⟨"N", "Not found"⟩)
  | some fa =>
    let r := validateCurveData las fa nv
    (kv.1, ⟨if r.1 then "Y" else "N", r.2⟩)

/-- `CurveValidator.validate_las_file` (lines 16–34).  The
`available_curves` comprehension over `las.curves` is OUTSIDE any
try/except: an exception raised by the curves enumeration escapes to the
caller (modelled by propagating the `.error`). -/
def validate_las_file (cfg : CurveConfig) (nv : ℚ) (las : LASHandle) :
    Except String (List (String × CurveResult)) :=
  match las.curvesE with
  | .error e => .error e
  | .ok cs => .ok (cfg.map (validateEntryFor las (availOf cs) nv))

/-- One row of `get_detailed_curve_info`'s result. -/
structure DetailedInfo where
  found : Bool
  mnemonic : String
  minS : String
  maxS : String
  percent_filled : String
  unitS : String
  description : String
deriving DecidableEq

/-- The "not found" row (lines 44–54). -/
def notFoundInfo (info : CurveInfo) : DetailedInfo :=
  ⟨false, "N/A", "N/A", "N/A", "N/A", "N/A", info.description⟩

/-- The per-curve exception row (lines 81–90). -/
def errorInfo (fa : String) (info : CurveInfo) : DetailedInfo :=
  ⟨true, fa, "Error", "Error", "Error", "N/A", info.description⟩

/-- `las.curves[found_alias]` — lasio curve-container lookup by mnemonic,
modelled case-insensitively (the found alias is already uppercased). -/
def findCurveUp (cs : List CurveMeta) (name : String) : Option CurveMeta :=
  cs.find? fun c => upperStr c.mnemonic == name

/-- `percent_filled = (valid_points / total_points * 100) if total_points > 0
else 0` (line 63). -/
def percentFilledOf (nv : ℚ) (data : List Sample) : ℚ :=
  if 0 < data.length then ((validOf nv data).length : ℚ) / data.length * 100 else 0

/-- The unit fallback of line 70: `curve_obj.unit if hasattr(...) and
curve_obj.unit else "N/A"` (an empty unit string is falsy). -/
def unitOr (c : CurveMeta) : String :=
  match c.unit with
  | some u => if u == "" then "N/A" else u
  | none => "N/A"

/-- Loop body of `get_detailed_curve_info` (lines 41–90) for a single
configured curve: on any exception during extraction (data load or curve
lookup) the row degrades to `Error` fields rather than failing the call. -/
def detailedFor (las : LASHandle) (cs : List CurveMeta) (nv : ℚ)
    (kv : String × CurveInfo) : String × DetailedInfo :=
  match find_curve_alias kv.2.aliases (availOf cs) with
  | none => (kv.1, notFoundInfo kv.2)
  | some fa =>
    match las.dataE fa with
    | .error _ => (kv.1, errorInfo fa kv.2)
    | .ok data =>
      let valid := validOf nv data
      let pf := percentFilledOf nv data
      match findCurveUp cs fa with
      | none => (kv.1, errorInfo fa kv.2)
      | some c =>
        (kv.1,
          { found := true
            mnemonic := fa
            minS := if 0 < valid.length then fmtS 4 (nanminL valid) else "N/A"
            maxS := if 0 < valid.length then fmtS 4 (nanmaxL valid) else "N/A"
            percent_filled := fmtFixed 2 pf
            unitS := unitOr c
            description := kv.2.description })

/-- `CurveValidator.get_detailed_curve_info` (lines 36–92).  As in
`validate_las_file`, the initial `las.curves` enumeration is unguarded. -/
def get_detailed_curve_info (cfg : CurveConfig) (nv : ℚ) (las : LASHandle) :
    Except String (List (String × DetailedInfo)) :=
  match las.curvesE with
  | .error e => .error e
  | .ok cs => .ok (cfg.map (detailedFor las cs nv))

/-! ## The SEG-Y handle model -/

/-- Binary-header fields used by the validators. -/
inductive BinField where
  | Interval | Format | SortingCode | MeasurementSystem
deriving DecidableEq

/-- Trace-header fields used by the validators. -/
inductive HField where
  | CDP_X | CDP_Y | SourceX | SourceY | GroupX | GroupY | CDP | FieldRecord
deriving DecidableEq

/-- A SEG-Y handle.  `traceE i`, `headerE i`, `binE f`, `formatE`, `textE`
model `segy.trace[i]`, `segy.header[i]`, `segy.bin[f]`, `segy.format` and
`segy.text[0]`, each of which may raise for a broken handle.  A trace
header behaves as `h.get(field, 0)`: a total map to (possibly NaN) numeric
values.  `tracecount` and `samplesSize` (`segy.samples.size`) are modelled
as total attributes. -/
structure SEGYHandle where
  tracecount : Nat
  samplesSize : Nat
  filename : Option String
  traceE : Nat → Except String (List Sample)
  headerE : Nat → Except String (HField → Sample)
  binE : BinField → Except String Int
  formatE : Except String Int
  textE : Except String String

/-- `np.linspace(0, hi, num, dtype=int)`: `num` evenly spaced points from 0
to `hi`, truncated to integers (exact integer arithmetic; the floating
evaluation of the source can differ by one at representation boundaries). -/
def linspaceTo (hi num : Nat) : List Nat :=
  if num = 0 then []
  else if num = 1 then [0]
  else (List.range num).map fun i => i * hi / (num - 1)

/-- `range(0, n, step)` for `step ≥ 1`. -/
def rangeStep (n step : Nat) : List Nat :=
  (List.range ((n + step - 1) / step)).map fun i => i * step

/-- Sequentially read the traces at the given indices; the first raising
access propagates (as the Python loop would). -/
def collectTraces (s : SEGYHandle) : List Nat → Except String (List (List Sample))
  | [] => .ok []
  | i :: is =>
    match s.traceE i, collectTraces s is with
    | .ok t, .ok ts => .ok (t :: ts)
    | .error e, _ => .error e
    | .ok _, .error e => .error e

/-- Sequentially read the trace headers at the given indices. -/
def collectHeaders (s : SEGYHandle) : List Nat → Except String (List (HField → Sample))
  | [] => .ok []
  | i :: is =>
    match s.headerE i, collectHeaders s is with
    | .ok h, .ok hs => .ok (h :: hs)
    | .error e, _ => .error e
    | .ok _, .error e => .error e

/-! ## 2D null-trace analysis and 3D trace quality -/

/-- `Seismic2DValidator._analyze_null_traces` (lines 257–277), numeric core:
sample `min(100, tracecount)` evenly spaced traces, count dead ones,
extrapolate with `int((null_count / trace_count) * tracecount)` —
TRUNCATION toward zero, which on these nonnegative values is the floor
(`Nat` division below).  Any exception (trace read failure, or the
zero-division when `tracecount = 0`) yields `(0, 0)`. -/
def analyzeNullTraces (s : SEGYHandle) : Nat × ℚ :=
  let tc := min 100 s.tracecount
  match collectTraces s (linspaceTo (s.tracecount - 1) tc) with
  | .error _ => (0, 0)
  | .ok ts =>
    if tc = 0 then (0, 0)
    else
      let nc := (ts.filter isDead2D).length
      let est := nc * s.tracecount / tc
      let pct : ℚ := if 0 < s.tracecount then (est : ℚ) / s.tracecount * 100 else 0
      (est, pct)

/-- Sampled trace indices of `Seismic3DValidator._extract_trace_quality`
(lines 216–225): stride `max(1, n // min(100, n))` over `range(0, n, step)`,
stopping once `min(100, n)` traces are collected. -/
def sampled3DIdx (n : Nat) : List Nat :=
  (rangeStep n (max 1 (n / min 100 n))).take (min 100 n)

/-- `Seismic3DValidator._extract_trace_quality` (lines 212–236): the
estimated null count is `int((zero_traces / len(traces)) * n_traces)` and
the valid count is `n_traces - estimated_null`; all exceptions (including
the `n // 0` zero-division when `tracecount = 0`) degrade to an error
entry. -/
def extract_trace_quality (s : SEGYHandle) : List (String × String) :=
  if s.tracecount = 0 then
    [("Trace Quality Error", "integer division or modulo by zero")]
  else
    match collectTraces s (sampled3DIdx s.tracecount) with
    | .error e => [("Trace Quality Error", e)]
    | .ok ts =>
      let z := (ts.filter isDeadQual3D).length
      let est := z * s.tracecount / ts.length
      [("Null/Dead Traces", toString est),
       ("Valid Traces", toString (s.tracecount - est))]

/-- `Seismic3DValidator._count_null_traces` (lines 575–592): stride
sampling WITHOUT a collection cap, dead test all-zero-or-all-NaN,
`int((null_count / sampled_count) * tracecount)`; exceptions yield `0`. -/
def count_null_traces (s : SEGYHandle) : Nat :=
  let tc := min 50 s.tracecount
  if tc = 0 then 0
  else
    match collectTraces s (rangeStep s.tracecount (max 1 (s.tracecount / tc))) with
    | .error _ => 0
    | .ok ts =>
      let nc := (ts.filter isDeadCnt3D).length
      if ts.length = 0 then 0 else nc * s.tracecount / ts.length

/-! ## Binary-header interpretation -/

/-- `_get_format_short` (identical in both validators). -/
def get_format_short (c : Int) : String :=
  match c with
  | 1 => "IBM Float"
  | 2 => "4-byte Int"
  | 3 => "2-byte Int"
  | 5 => "IEEE Float"
  | 8 => "1-byte Int"
  | _ => "Code " ++ toString c

/-- `Seismic2DValidator._get_format_description`. -/
def get_format_description (c : Int) : String :=
  match c with
  | 1 => "4-byte IBM floating-point"
  | 2 => "4-byte signed integer"
  | 3 => "2-byte signed integer"
  | 5 => "4-byte IEEE floating-point"
  | 8 => "1-byte signed integer"
  | _ => "Unknown (" ++ toString c ++ ")"

/-- `_get_sorting_description` (identical in both validators). -/
def get_sorting_description (c : Int) : String :=
  match c with
  | -1 => "Other"
  | 0 => "Unknown"
  | 1 => "As recorded (no sorting)"
  | 2 => "CDP ensemble"
  | 3 => "Single fold continuous profile"
  | 4 => "Horizontally stacked"
  | 5 => "Common source point"
  | 6 => "Common receiver point"
  | 7 => "Common offset point"
  | 8 => "Common mid-point"
  | 9 => "Common conversion point"
  | _ => "Unknown (" ++ toString c ++ ")"

/-- Result of `Seismic2DValidator._get_binary_header_info`. -/
structure BinInfo where
  binary : String
  format_code : String
  sorting : String
  endian : String
  measurement_system : String
deriving DecidableEq

/-- `Seismic2DValidator._get_binary_header_info` (lines 504–548).  The
endianness heuristic: "Little Endian" iff the raw `Interval` field lies in
`[100, 100000]`, else "Big Endian (possible)"; an unreadable field gives
"Unknown".  A failing `Format`/`SortingCode` read fails the whole helper
to the all-`Error` result. -/
def getBinaryHeaderInfo (s : SEGYHandle) : BinInfo :=
  match s.binE .Format, s.binE .SortingCode with
  | .ok fc, .ok sc =>
    let endian :=
      match s.binE .Interval with
      | .ok iv =>
        if 100 ≤ iv ∧ iv ≤ 100000 then "Little Endian" else "Big Endian (possible)"
      | .error _ => "Unknown"
    let meas :=
      match s.binE .MeasurementSystem with
      | .ok m =>
        if m = 1 then "Meters"
        else if m = 2 then "Feet"
        else "Unknown (" ++ toString m ++ ")"
      | .error _ => "Unknown"
    ⟨"SEG-Y Rev 1", toString fc ++ " (" ++ get_format_short fc ++ ")",
      get_sorting_description sc, endian, meas⟩
  | _, _ => ⟨"Error", "Error", "Error", "Error", "Error"⟩

/-- `Seismic3DValidator._extract_binary_header` (lines 238–264): the endian
entry is the FIXED string "Big Endian (SEG-Y standard)" — no inference; a
failing `segy.format` read fails the helper to its error entry. -/
def extract_binary_header_3d (s : SEGYHandle) : List (String × String) :=
  match s.formatE with
  | .error e => [("Binary Header Error", e)]
  | .ok fc =>
    [("Binary Format Code", toString fc),
     ("Trace Sorting",
       match s.binE .SortingCode with
       | .ok sc => get_sorting_description sc
       | .error _ => "Not available"),
     ("Endian Type", "Big Endian (SEG-Y standard)"),
     ("Measurement System",
       match s.binE .MeasurementSystem with
       | .ok m =>
         if m = 1 then "Meters"
         else if m = 2 then "Feet"
         else "Unknown (" ++ toString m ++ ")"
       | .error _ => "Not available")]

/-! ## Coordinate probing (shared by `_get_coordinate_range`,
`_calculate_trace_spacing`, `_calculate_line_geometry`) -/

/-- The candidate coordinate-field pairs, in priority order (CDP → Source →
Group). -/
def coordCandidates : List (HField × HField) :=
  [(.CDP_X, .CDP_Y), (.SourceX, .SourceY), (.GroupX, .GroupY)]

/-- The validity test `(x != 0 or y != 0) and not np.isnan(x) and not
np.isnan(y)`, returning the finite pair when it passes. -/
def coordOk (x y : Sample) : Option (ℚ × ℚ) :=
  match x, y with
  | .val a, .val b => if a ≠ 0 ∨ b ≠ 0 then some (a, b) else none
  | _, _ => none

/-- Probe the first `min(50, tracecount)` trace headers for valid values of
one candidate pair. -/
def probePairs (s : SEGYHandle) (xf yf : HField) : Except String (List (ℚ × ℚ)) :=
  match collectHeaders s (List.range (min 50 s.tracecount)) with
  | .error e => .error e
  | .ok hs => .ok (hs.filterMap fun h => coordOk (h xf) (h yf))

/-- Walk the candidate pairs in order; select the first yielding more than
5 valid samples. -/
def chooseFieldsFrom (s : SEGYHandle) :
    List (HField × HField) → Except String (Option (HField × HField))
  | [] => .ok none
  | (xf, yf) :: rest =>
    match probePairs s xf yf with
    | .error e => .error e
    | .ok ps => if 5 < ps.length then .ok (some (xf, yf)) else chooseFieldsFrom s rest

/-- Coordinate-field auto-detection. -/
def chooseFields (s : SEGYHandle) : Except String (Option (HField × HField)) :=
  chooseFieldsFrom s coordCandidates

/-- Collect valid coordinates over `min(200, tracecount)` evenly spaced
traces (used by `_get_coordinate_range` and `_calculate_line_geometry`). -/
def collectCoords (s : SEGYHandle) (xf yf : HField) : Except String (List (ℚ × ℚ)) :=
  match collectHeaders s (linspaceTo (s.tracecount - 1) (min 200 s.tracecount)) with
  | .error e => .error e
  | .ok hs => .ok (hs.filterMap fun h => coordOk (h xf) (h yf))

/-- `Seismic2DValidator._get_coordinate_range` (lines 138–188): returns the
`(x_range, y_range)` strings. -/
def getCoordinateRange (s : SEGYHandle) : String × String :=
  match chooseFields s with
  | .error _ => ("Error", "Error")
  | .ok none => ("No valid coordinates", "No valid coordinates")
  | .ok (some (xf, yf)) =>
    match collectCoords s xf yf with
    | .error _ => ("Error", "Error")
    | .ok ps =>
      match qlistMin (ps.map Prod.fst), qlistMax (ps.map Prod.fst),
          qlistMin (ps.map Prod.snd), qlistMax (ps.map Prod.snd) with
      | some xmin, some xmax, some ymin, some ymax =>
        (fmtFixed 2 xmin ++ " to " ++ fmtFixed 2 xmax,
         fmtFixed 2 ymin ++ " to " ++ fmtFixed 2 ymax)
      | _, _, _, _ => ("No valid coordinates", "No valid coordinates")

/-! ## Line geometry (`_calculate_line_geometry`) -/

/-- Embed a coordinate pair in ℂ (used to transport the Euclidean triangle
inequality). -/
def toC (p : ℚ × ℚ) : ℂ := { re := (p.1 : ℝ), im := (p.2 : ℝ) }

/-- Euclidean distance `np.sqrt((x2-x1)**2 + (y2-y1)**2)`. -/
noncomputable def ptDist (p q : ℚ × ℚ) : ℝ :=
  Real.sqrt (((p.1 - q.1) ^ 2 + (p.2 - q.2) ^ 2 : ℚ) : ℝ)

/-- Total path length: sum of consecutive segment lengths. -/
noncomputable def pathLenOf : List (ℚ × ℚ) → ℝ
  | p :: q :: rest => ptDist p q + pathLenOf (q :: rest)
  | _ => 0

/-- Straight-line distance, first to last collected point. -/
noncomputable def straightDistOf (ps : List (ℚ × ℚ)) : ℝ :=
  ptDist (ps.headD (0, 0)) (ps.getLastD (0, 0))

open Classical in
/-- `sinuosity = total_length / straight_dist if straight_dist > 0 else 1.0`
(line 459). -/
noncomputable def sinuosityOf (ps : List (ℚ × ℚ)) : ℝ :=
  if 0 < straightDistOf ps then pathLenOf ps / straightDistOf ps else 1

open Classical in
/-- Shape classification (lines 462–469): bands `<1.05`, `<1.2`, `<1.5`
with strict upper bounds, hence inclusive lower bounds. -/
noncomputable def shapeOf (sin : ℝ) : String :=
  if sin < (1.05 : ℝ) then "Straight"
  else if sin < (1.2 : ℝ) then "Nearly Straight"
  else if sin < (1.5 : ℝ) then "Curved"
  else "Highly Curved"

/-- Non-strict monotone nondecreasing test on a rational list. -/
def nondecB : List ℚ → Bool
  | a :: b :: r => decide (a ≤ b) && nondecB (b :: r)
  | _ => true

/-- Non-strict monotone nonincreasing test. -/
def nonincB : List ℚ → Bool
  | a :: b :: r => decide (b ≤ a) && nonincB (b :: r)
  | _ => true

/-- Coordinate-order classification (lines 471–482): "Sequential" when any
one axis is monotone across the sample. -/
def coordOrderOf (ps : List (ℚ × ℚ)) : String :=
  let xs := ps.map Prod.fst
  let ys := ps.map Prod.snd
  if nondecB xs || nonincB xs || nondecB ys || nonincB ys then "Sequential"
  else "Irregular"

/-- A displayed metric value.  The source pre-formats every value to a
string; values whose computation stays in exact arithmetic are kept as the
formatted string, values produced by square roots / logarithms / spectra
are kept as the underlying real number (constructor `re`). -/
inductive IVal where
  | str (v : String) : IVal
  | re (v : ℝ) : IVal

/-- Result of `_calculate_line_geometry` (lines 394–499). -/
structure GeomInfo where
  straight : IVal
  total : IVal
  sinuosity : IVal
  shape : String
  order : String

/-- `Seismic2DValidator._calculate_line_geometry`. -/
noncomputable def calcLineGeometry (s : SEGYHandle) : GeomInfo :=
  match chooseFields s with
  | .error _ => ⟨.str "Error", .str "Error", .str "Error", "Error", "Error"⟩
  | .ok none =>
    ⟨.str "No coordinates found", .str "No coordinates found", .str "N/A",
      "Unknown", "Unknown"⟩
  | .ok (some (xf, yf)) =>
    match collectCoords s xf yf with
    | .error _ => ⟨.str "Error", .str "Error", .str "Error", "Error", "Error"⟩
    | .ok ps =>
      if ps.length < 2 then
        ⟨.str "Insufficient coordinates", .str "Insufficient coordinates", .str "N/A",
          "Unknown", "Unknown"⟩
      else
        ⟨.re (straightDistOf ps), .re (pathLenOf ps / 1000), .re (sinuosityOf ps),
          shapeOf (sinuosityOf ps), coordOrderOf ps⟩

/-! ## Remaining 2D helpers -/

/-- `os.path.basename` (POSIX). -/
def baseName (p : String) : String := (p.splitOn "/").getLastD p

/-- Render a header numeric value (`f"{v}"`); noninteger rationals render
as fractions, a deviation from Python's float `repr` that no claim
touches. -/
def sampleStr (s : Sample) : String :=
  match s with
  | .nan => "nan"
  | .val q => if q.den = 1 then toString q.num else toString q

/-- Match the regex `LINE\s*[:\-]?\s*(\S+)` at the head of a character
list. -/
def lineTokenAt (cs : List Char) : Option String :=
  if ['L', 'I', 'N', 'E'].isPrefixOf cs then
    let a1 := (cs.drop 4).dropWhile Char.isWhitespace
    let a2 := match a1 with
      | ':' :: t => t
      | '-' :: t => t
      | _ => a1
    let a3 := a2.dropWhile Char.isWhitespace
    let tok := a3.takeWhile fun c => !c.isWhitespace
    if tok.isEmpty then none else some (String.mk tok)
  else none

/-- `re.search` of the LINE pattern: first match anywhere in the line. -/
def lineSearch : List Char → Option String
  | [] => none
  | c :: cs =>
    match lineTokenAt (c :: cs) with
    | some t => some t
    | none => lineSearch cs

/-- `Seismic2DValidator._extract_line_name` (lines 609–619): scan the
wrapped textual header line by line (uppercased), "N/A" on failure. -/
def extractLineName (s : SEGYHandle) : String :=
  match s.textE with
  | .error _ => "N/A"
  | .ok t =>
    ((t.splitOn "\n").findSome? fun l => lineSearch (l.data.map Char.toUpper)).getD "N/A"

/-- `Seismic2DValidator._get_cdp_range` (lines 621–633): CDP of the first
and last trace, falling back to FieldRecord when both CDPs are zero;
"N/A" on any failure (including the empty file, where `header[-1]`
raises). -/
def getCdpRange (s : SEGYHandle) : String :=
  if s.tracecount = 0 then "N/A"
  else
    match s.headerE 0, s.headerE (s.tracecount - 1) with
    | .ok h0, .ok hl =>
      if sampleEqQ (h0 .CDP) 0 && sampleEqQ (hl .CDP) 0 then
        sampleStr (h0 .FieldRecord) ++ " - " ++ sampleStr (hl .FieldRecord)
      else sampleStr (h0 .CDP) ++ " - " ++ sampleStr (hl .CDP)
    | _, _ => "N/A"

/-- Amplitude statistics of `_calculate_amplitude_stats` (lines 193–219);
min/max/mean stay exact, std and rms take square roots. -/
structure AmpStats where
  minv : ℚ
  maxv : ℚ
  meanv : ℚ
  stdv : ℝ
  rmsv : ℝ

/-- `Seismic2DValidator._calculate_amplitude_stats`: gather the samples of
`min(sample_size, tracecount)` evenly spaced traces, drop non-finite
values, report min/max/mean/std/rms (zeros on an exception or when no
finite sample remains). -/
noncomputable def calcAmplitudeStats (s : SEGYHandle) (sampleSize : Nat) : AmpStats :=
  let tc := min sampleSize s.tracecount
  match collectTraces s (linspaceTo (s.tracecount - 1) tc) with
  | .error _ => ⟨0, 0, 0, 0, 0⟩
  | .ok ts =>
    let xs := realVals ts.flatten
    match qlistMin xs, qlistMax xs with
    | some mn, some mx =>
      ⟨mn, mx, qmean xs, Real.sqrt (qvar xs), Real.sqrt (qmean (xs.map fun x => x ^ 2))⟩
    | _, _ => ⟨0, 0, 0, 0, 0⟩

open Classical in
/-- `np.argmax` over a real list: index of the first occurrence of the
maximum. -/
noncomputable def argmaxFrom : List ℝ → ℝ → Nat → Nat → Nat
  | [], _, _, best => best
  | x :: xs, bv, idx, best =>
    if bv < x then argmaxFrom xs x (idx + 1) idx else argmaxFrom xs bv (idx + 1) best

/-- `np.argmax` (0 on the empty list, which numpy rejects — callers guard). -/
noncomputable def argmaxIdx : List ℝ → Nat
  | [] => 0
  | x :: xs => argmaxFrom xs x 1 0

open Complex in
/-- Magnitude of the `k`-th DFT bin of a rational signal
(`np.abs(np.fft.rfft(xs))[k]`). -/
noncomputable def dftMagAt (xs : List ℚ) (k : Nat) : ℝ :=
  Complex.abs (∑ j ∈ Finset.range xs.length,
    ((xs.getD j 0 : ℝ) : ℂ) *
      Complex.exp (-(2 * (Real.pi : ℂ) * Complex.I * (j : ℂ) * (k : ℂ)) / (xs.length : ℂ)))

/-- The finite values of a trace, or `none` when any sample is NaN. -/
def allRealOpt (t : List Sample) : Option (List ℚ) :=
  if allRealB t then some (realVals t) else none

/-- `Seismic2DValidator._calculate_frequency_metrics` (lines 223–253):
Nyquist `1/(2·dt)` and the dominant frequency of the middle trace's
magnitude spectrum with the DC bin excluded (`rfft_freq[k] = k/(n·dt)`).
Exceptions — a zero sample interval (float zero-division), a failing trace
read, or a spectrum too short for `argmax` — yield `(0, 0)`.  A
NaN-polluted trace (whose numpy spectrum would be NaN-valued) is collapsed
to the same default; no claim depends on that value. -/
noncomputable def calcFrequencyMetrics (s : SEGYHandle) (intervalMs : ℚ) : ℚ × ℝ :=
  let dt := intervalMs / 1000
  if dt = 0 then (0, 0)
  else
    match s.traceE (s.tracecount / 2) with
    | .error _ => (0, 0)
    | .ok t =>
      match allRealOpt t with
      | none => (0, 0)
      | some xs =>
        let n := xs.length
        if n ≤ 1 then (0, 0)
        else
          let ys := xs.map fun x => x - qmean xs
          let mags := (List.range (n / 2 + 1)).map (dftMagAt ys)
          let di := argmaxIdx (mags.drop 1) + 1
          (1 / (2 * dt), (di : ℝ) / ((n : ℝ) * (dt : ℝ)))

/-- `Seismic2DValidator._check_trace_length_uniformity` (lines 279–298):
the number of distinct lengths among `min(10, tracecount)` sampled
traces. -/
def checkTraceLengthUniformity (s : SEGYHandle) : String :=
  match collectTraces s (linspaceTo (s.tracecount - 1) (min 10 s.tracecount)) with
  | .error _ => "Error checking uniformity"
  | .ok ts =>
    let lens := (ts.map List.length).eraseDups
    if lens.length = 1 then "Uniform"
    else "Non-uniform (" ++ toString lens.length ++ " different lengths)"

/-- A sample lies within `1e-6` of a given amplitude (`np.abs(trace - amp)
< 1e-6`; NaN compares false). -/
def sampleNear (x : Sample) (a : ℚ) : Bool :=
  match x with
  | .nan => false
  | .val q => decide (|q - a| < 1 / 10 ^ 6)

/-- `Seismic2DValidator._detect_clipping` (lines 300–329): fraction of
sampled-trace samples at the observed global min/max within `1e-6`;
"Yes (pct%)" when above 1%, else "No". -/
def detectClipping (s : SEGYHandle) (maxAmp minAmp : ℚ) (sampleSize : Nat) : String :=
  match collectTraces s (linspaceTo (s.tracecount - 1) (min sampleSize s.tracecount)) with
  | .error _ => "Error"
  | .ok ts =>
    let total : Nat := (ts.map List.length).sum
    let clipped : Nat := (ts.map fun t =>
      (t.filter fun x => sampleNear x maxAmp).length +
        (t.filter fun x => sampleNear x minAmp).length).sum
    let pct : ℚ := if 0 < total then (clipped : ℚ) / (total : ℚ) * 100 else 0
    if 1 < pct then "Yes (" ++ fmtFixed 2 pct ++ "%)" else "No"

/-- Read the header pairs `(header[i], header[i+1])` at the given indices. -/
def collectHeaderPairs (s : SEGYHandle) :
    List Nat → Except String (List ((HField → Sample) × (HField → Sample)))
  | [] => .ok []
  | i :: is =>
    match s.headerE i, s.headerE (i + 1), collectHeaderPairs s is with
    | .ok h1, .ok h2, .ok hs => .ok ((h1, h2) :: hs)
    | .error e, _, _ => .error e
    | .ok _, .error e, _ => .error e
    | .ok _, .ok _, .error e => .error e

/-- One spacing sample (lines 366–376): requires both points nonzero and
the FIRST point non-NaN; a NaN in the second point or two equal points is
discarded by the `distance > 0` test (NaN compares false). -/
noncomputable def spacingOf (xf yf : HField) (h1 h2 : HField → Sample) : Option ℝ :=
  match h1 xf, h1 yf with
  | .val x1, .val y1 =>
    if (x1 ≠ 0 ∨ y1 ≠ 0) ∧ (!sampleEqQ (h2 xf) 0 ∨ !sampleEqQ (h2 yf) 0) then
      match h2 xf, h2 yf with
      | .val x2, .val y2 =>
        let d2 : ℚ := (x2 - x1) ^ 2 + (y2 - y1) ^ 2
        if 0 < d2 then some (Real.sqrt (d2 : ℝ)) else none
      | _, _ => none
    else none
  | _, _ => none

/-- Mean of a real list. -/
noncomputable def rmean (l : List ℝ) : ℝ := l.sum / l.length

/-- Minimum of a real list (0 on empty; callers guard). -/
noncomputable def rlistMin : List ℝ → ℝ
  | [] => 0
  | x :: xs => xs.foldl min x

/-- Maximum of a real list (0 on empty; callers guard). -/
noncomputable def rlistMax : List ℝ → ℝ
  | [] => 0
  | x :: xs => xs.foldl max x

/-- `Seismic2DValidator._calculate_trace_spacing` (lines 333–391):
`(average, min, max)` spacing over up to 200 evenly spaced consecutive
header pairs. -/
noncomputable def calcTraceSpacing (s : SEGYHandle) : IVal × IVal × IVal :=
  match chooseFields s with
  | .error _ => (.str "Error", .str "Error", .str "Error")
  | .ok none =>
    (.str "No valid coordinates", .str "No valid coordinates", .str "No valid coordinates")
  | .ok (some (xf, yf)) =>
    match collectHeaderPairs s
        (linspaceTo (s.tracecount - 2) (min 200 (s.tracecount - 1))) with
    | .error _ => (.str "Error", .str "Error", .str "Error")
    | .ok hps =>
      let sp := hps.filterMap fun hp => spacingOf xf yf hp.1 hp.2
      if sp.isEmpty then
        (.str "No valid coordinates", .str "No valid coordinates", .str "No valid coordinates")
      else (.re (rmean sp), .re (rlistMin sp), .re (rlistMax sp))

/-- Consecutive differences, `np.diff`. -/
def qdiff : List ℚ → List ℚ
  | a :: b :: r => (b - a) :: qdiff (b :: r)
  | _ => []

open Classical in
/-- `Seismic2DValidator._calculate_signal_statistics` (lines 552–605):
`(std_dev, mean, skewness, kurtosis, snr_db)` over the finite samples of
100 evenly spaced traces; zeros on an exception or when no finite sample
remains.  SNR uses the first-difference RMS as the noise proxy; a
nonpositive noise RMS (including the NaN produced by a too-short sample,
which compares false) gives linear SNR 1 and hence 0 dB. -/
noncomputable def calcSignalStatistics (s : SEGYHandle) (sampleSize : Nat) :
    ℝ × ℝ × ℝ × ℝ × ℝ :=
  match collectTraces s (linspaceTo (s.tracecount - 1) (min sampleSize s.tracecount)) with
  | .error _ => (0, 0, 0, 0, 0)
  | .ok ts =>
    let xs := realVals ts.flatten
    if xs.isEmpty then (0, 0, 0, 0, 0)
    else
      let μ : ℚ := qmean xs
      let σ : ℝ := Real.sqrt (qvar xs)
      let skew := if 0 < σ then rmean (xs.map fun x => (((x : ℝ) - μ) / σ) ^ 3) else 0
      let kurt := if 0 < σ then rmean (xs.map fun x => (((x : ℝ) - μ) / σ) ^ 4) - 3 else 0
      let srms : ℝ := Real.sqrt (qmean (xs.map fun x => x ^ 2))
      let noise := qdiff xs
      let nrms : ℝ := if noise.isEmpty then 0 else Real.sqrt (qmean (noise.map fun x => x ^ 2))
      let snrLin : ℝ := if 0 < nrms then srms / nrms else 1
      let snr : ℝ := if 0 < snrLin then 20 * Real.logb 10 snrLin else 0
      (σ, (μ : ℝ), skew, kurt, snr)

/-- A comprehensive-info mapping. -/
abbrev InfoMap := List (String × IVal)

/-- `Seismic2DValidator.get_comprehensive_info` (lines 50–134).  Every
helper is internally exception-guarded; the only unguarded raising
operations inside the outer `try` are the two `segy.bin[...]` reads, and
the outer `except` appends an `"Error"` entry to the partially built
mapping, so the method itself never raises. -/
noncomputable def get_comprehensive_info_2d (s : SEGYHandle) : InfoMap :=
  let i0 : InfoMap :=
    [("Filename", .str (match s.filename with | some f => baseName f | none => "N/A")),
     ("Line Name", .str (extractLineName s))]
  match s.binE .Format with
  | .error e => i0 ++ [("Error", .str ("Error extracting comprehensive info: " ++ e))]
  | .ok fc =>
    let i1 := i0 ++
      [("Format", .str (get_format_description fc)),
       ("Trace Count", .str (toString s.tracecount)),
       ("Samples per Trace", .str (toString s.samplesSize))]
    match s.binE .Interval with
    | .error e => i1 ++ [("Error", .str ("Error extracting comprehensive info: " ++ e))]
    | .ok ivRaw =>
      let interval : ℚ := (ivRaw : ℚ) / 1000
      let coord := getCoordinateRange s
      let amp := calcAmplitudeStats s 100
      let freq := calcFrequencyMetrics s interval
      let nullI := analyzeNullTraces s
      let spacing := calcTraceSpacing s
      let geom := calcLineGeometry s
      let binI := getBinaryHeaderInfo s
      let sig := calcSignalStatistics s 100
      i1 ++
        [("Sample Interval (ms)", .str (fmtFixed 3 interval)),
         ("CDP Range", .str (getCdpRange s)),
         ("Coordinate Range X", .str coord.1),
         ("Coordinate Range Y", .str coord.2),
         ("Amplitude Range", .str (fmtFixed 4 amp.minv ++ " to " ++ fmtFixed 4 amp.maxv)),
         ("RMS Amplitude", .re amp.rmsv),
         ("Nyquist Frequency", .str (fmtFixed 2 freq.1 ++ " Hz")),
         ("Dominant Frequency", .re freq.2),
         ("Null/Dead Traces",
           .str (toString nullI.1 ++ " (" ++ fmtFixed 2 nullI.2 ++ "%)")),
         ("Trace Length Uniformity", .str (checkTraceLengthUniformity s)),
         ("Clipping Detected", .str (detectClipping s amp.maxv amp.minv 50)),
         ("Average Trace Spacing (m)", spacing.1),
         ("Min Trace Spacing (m)", spacing.2.1),
         ("Max Trace Spacing (m)", spacing.2.2),
         ("Straight Line Distance (m)", geom.straight),
         ("Est. Total Line Length (km)", geom.total),
         ("Line Sinuosity", geom.sinuosity),
         ("Line Shape", .str geom.shape),
         ("Coordinate Order", .str geom.order),
         ("Binary", .str binI.binary),
         ("Format Code", .str binI.format_code),
         ("Trace Sorting", .str binI.sorting),
         ("Endian Type", .str binI.endian),
         ("Measurement System", .str binI.measurement_system),
         ("Signal Std Dev", .re sig.1),
         ("Signal Mean", .re sig.2.1),
         ("Skewness", .re sig.2.2.1),
         ("Kurtosis", .re sig.2.2.2.1),
         ("Est. SNR (dB)", .re sig.2.2.2.2)]

/-- `Except.isOk` as a plain boolean. -/
def exceptOk {α : Type} (e : Except String α) : Bool :=
  match e with
  | .ok _ => true
  | .error _ => false

/-! ## Shared lemmas -/

lemma sampleEq_iff (s : Sample) (q : ℚ) : sampleEqQ s q = true ↔ s = Sample.val q := by
  cases s <;> simp [sampleEqQ]

lemma sampleNe_iff (s : Sample) (q : ℚ) : (!sampleEqQ s q) = true ↔ s ≠ Sample.val q := by
  cases s <;> simp [sampleEqQ]

lemma isNan_iff (s : Sample) : s.isNanB = true ↔ s = Sample.nan := by
  cases s <;> simp [Sample.isNanB]

lemma notNan_iff (s : Sample) : (!s.isNanB) = true ↔ s ≠ Sample.nan := by
  cases s <;> simp [Sample.isNanB]

lemma isNanFalse_iff (s : Sample) : s.isNanB = false ↔ s ≠ Sample.nan := by
  cases s <;> simp [Sample.isNanB]

lemma allZero_iff (t : List Sample) : allZeroB t = true ↔ ∀ s ∈ t, s = Sample.val 0 := by
  simp [allZeroB, List.all_eq_true, sampleEq_iff]

lemma allNaN_iff (t : List Sample) : allNaNB t = true ↔ ∀ s ∈ t, s = Sample.nan := by
  simp [allNaNB, List.all_eq_true, isNan_iff]

lemma allReal_iff (t : List Sample) : allRealB t = true ↔ ∀ s ∈ t, s ≠ Sample.nan := by
  simp [allRealB, List.all_eq_true, isNanFalse_iff]

lemma validOf_empty_iff (nv : ℚ) (data : List Sample) :
    (validOf nv data).length = 0 ↔ ∀ s ∈ data, s = Sample.val nv := by
  rw [List.length_eq_zero]
  simp only [validOf, List.filter_eq_nil_iff]
  constructor
  · intro h s hs
    have := h s hs
    rcases hh : sampleEqQ s nv with _ | _
    · exact absurd (by simp [hh]) this
    · exact (sampleEq_iff s nv).mp hh
  · intro h s hs
    simp [(sampleEq_iff s nv).mpr (h s hs)]

lemma validOf_full_iff (nv : ℚ) (data : List Sample) :
    (validOf nv data).length = data.length ↔ ∀ s ∈ data, s ≠ Sample.val nv := by
  constructor
  · intro h s hs
    have heq : validOf nv data = data :=
      (List.filter_sublist data).eq_of_length h
    exact (sampleNe_iff s nv).mp ((List.filter_eq_self.mp heq) s hs)
  · intro h
    have heq : validOf nv data = data :=
      List.filter_eq_self.mpr fun s hs => (sampleNe_iff s nv).mpr (h s hs)
    rw [heq]

/-! ## Claim 1 — scanner filter semantics -/

/-- C1 counterexample: with `filter_enabled=True` and empty `filter_text`
the scanner returns every matching-extension file — here one file — not
zero files as the claim states. -/
theorem claim1_counterexample :
    find_all_las_files true "" true [("d", ["a.las"])] = ["d/a.las"] ∧
    find_all_las_files true "" true [("d", ["a.las"])] ≠ [] ∧
    find_all_segy_files true "" true [("d", ["b.sgy"])] = ["d/b.sgy"] := by
  refine ⟨by decide, by decide, by decide⟩

/-- C1 (amended): an enabled filter with EMPTY text behaves as if the
filter were disabled — `find_all_las_files` / `find_all_segy_files` return
every file with a matching extension; a disabled filter likewise returns
every matching-extension file regardless of the filter text. -/
theorem claim1_amended (walk : List WalkEntry) (ft : String) :
    find_all_las_files true "" true walk = allLasByExtension walk ∧
    find_all_las_files true ft false walk = allLasByExtension walk ∧
    find_all_segy_files true "" true walk = allSegyByExtension walk ∧
    find_all_segy_files true ft false walk = allSegyByExtension walk := by
  have hlas : ∀ (ft' : String) (fe : Bool), fe = false ∨ ft'.data.isEmpty = true →
      keepLas ft' fe = fun fn => endsLowerB fn ".las".data := by
    intro ft' fe h
    funext fn
    rcases h with h | h <;> simp [keepLas, h]
  have hsegy : ∀ (ft' : String) (fe : Bool), fe = false ∨ ft'.data.isEmpty = true →
      keepSegy ft' fe =
        fun fn => endsLowerB fn ".sgy".data || endsLowerB fn ".segy".data := by
    intro ft' fe h
    funext fn
    rcases h with h | h <;> simp [keepSegy, h]
  refine ⟨?_, ?_, ?_, ?_⟩
  · simp only [find_all_las_files, hlas "" true (Or.inr rfl), allLasByExtension,
      Bool.not_true, Bool.false_eq_true, if_false]
  · simp only [find_all_las_files, hlas ft false (Or.inl rfl), allLasByExtension,
      Bool.not_true, Bool.false_eq_true, if_false]
  · simp only [find_all_segy_files, hsegy "" true (Or.inr rfl), allSegyByExtension,
      Bool.not_true, Bool.false_eq_true, if_false]
  · simp only [find_all_segy_files, hsegy ft false (Or.inl rfl), allSegyByExtension,
      Bool.not_true, Bool.false_eq_true, if_false]

/-! ## Claim 2 — exception containment of the public entry points -/

/-- C2 counterexample: on a handle whose `las.curves` enumeration raises
(e.g. the `None` returned by a failed `read_las_file`), both
`validate_las_file` and `get_detailed_curve_info` propagate the exception
instead of returning a structured mapping. -/
theorem claim2_counterexample :
    validate_las_file [] nullDefault ⟨.error "AttributeError", fun _ => .ok []⟩ =
      .error "AttributeError" ∧
    get_detailed_curve_info [] nullDefault ⟨.error "AttributeError", fun _ => .ok []⟩ =
      .error "AttributeError" :=
  ⟨rfl, rfl⟩

/-- C2 (amended): `Seismic2DValidator.get_comprehensive_info` returns a
(nonempty) structured mapping for every handle — its outer guard catches
everything — and `validate_las_file` / `get_detailed_curve_info` return a
structured mapping whenever the handle's `las.curves` enumeration succeeds
(exceptions during per-curve extraction are caught per curve); an
exception raised by the curves enumeration itself escapes both. -/
theorem claim2_amended (cfg : CurveConfig) (las : LASHandle) (s : SEGYHandle)
    (h : exceptOk las.curvesE = true) :
    exceptOk (validate_las_file cfg nullDefault las) = true ∧
    exceptOk (get_detailed_curve_info cfg nullDefault las) = true ∧
    get_comprehensive_info_2d s ≠ [] := by
  obtain ⟨cs, hcs⟩ : ∃ cs, las.curvesE = .ok cs := by
    cases hc : las.curvesE with
    | ok cs => exact ⟨cs, rfl⟩
    | error e => rw [hc] at h; simp [exceptOk] at h
  refine ⟨?_, ?_, ?_⟩
  · simp [validate_las_file, hcs, exceptOk]
  · simp [get_detailed_curve_info, hcs, exceptOk]
  · unfold get_comprehensive_info_2d
    cases hf : s.binE .Format with
    | error e => simp
    | ok fc =>
      cases hi : s.binE .Interval with
      | error e => simp
      | ok iv => simp

/-- Concrete instance for C2 (amended). -/
def lasW2 : LASHandle := ⟨.ok [⟨"GR", some "API"⟩], fun _ => .ok [Sample.val 1]⟩

/-- Concrete broken SEG-Y handle (every access raises). -/
def segyW2 : SEGYHandle :=
  ⟨0, 0, none, fun _ => .error "x", fun _ => .error "x", fun _ => .error "x",
    .error "x", .error "x"⟩

/-- Witness for C2 (amended). -/
theorem claim2_witness :
    exceptOk (validate_las_file [("GR", ⟨["GR"], "Gamma Ray"⟩)] nullDefault lasW2) = true ∧
    exceptOk (get_detailed_curve_info [("GR", ⟨["GR"], "Gamma Ray"⟩)] nullDefault lasW2) =
      true ∧
    get_comprehensive_info_2d segyW2 ≠ [] :=
  claim2_amended [("GR", ⟨["GR"], "Gamma Ray"⟩)] lasW2 segyW2 rfl

/-! ## Claim 5 — first-match alias resolution -/

/-- C5: alias resolution walks the alias list in order and binds to the
first alias whose uppercase form is among the uppercased available
mnemonics: whatever precedes it fails the membership test, whatever
follows is never consulted. -/
theorem claim5 (pre suf avail : List String) (a : String)
    (ha : avail.contains (upperStr a) = true)
    (hpre : ∀ b ∈ pre, avail.contains (upperStr b) = false) :
    find_curve_alias (pre ++ a :: suf) avail = some (upperStr a) := by
  induction pre with
  | nil =>
    rw [List.nil_append]
    unfold find_curve_alias
    rw [ha]
    simp
  | cons b pre ih =>
    have hb := hpre b (by simp)
    rw [List.cons_append]
    unfold find_curve_alias
    rw [hb]
    simpa using ih fun c hc => hpre c (by simp [hc])

/-- Witness for C5: with aliases `["RD", "RT"]` and a file containing both
mnemonics, resolution binds `"RD"`, never `"RT"`. -/
theorem claim5_witness :
    find_curve_alias ["RD", "RT"] ["RD", "RT"] = some "RD" :=
  claim5 [] ["RT"] ["RD", "RT"] "RD" (by decide) (by simp)

/-! ## Claim 4 — dead-trace criteria -/

lemma stdLt_iff (t : List Sample) :
    stdLtB t = true ↔
      (∀ s ∈ t, s ≠ Sample.nan) ∧ t ≠ [] ∧ qvar (realVals t) < 1 / 10 ^ 20 := by
  simp [stdLtB, allReal_iff, List.isEmpty_iff, Bool.and_eq_true, and_assoc]

/-- A handle with a single constant nonzero trace, for the C4 and C3
counterexamples' function-level evaluation. -/
def segyNT : SEGYHandle :=
  ⟨1, 0, none, fun _ => .ok [Sample.val 5, Sample.val 5], fun _ => .error "x",
    fun _ => .error "x", .error "x", .error "x"⟩

/-- C4 counterexample: the constant trace `[5, 5]` has standard deviation
`0 < 1e-10` and therefore satisfies the claimed three-criteria dead test
(the 2D detector counts it dead), but neither 3D detector counts it: the
claim's "if and only if" fails for the 3D detectors.  At the function
level, `_count_null_traces` reports 0 dead traces on a file whose only
trace is `[5, 5]` while the 2D analyzer reports 1. -/
theorem claim4_counterexample :
    stdLtB [Sample.val 5, Sample.val 5] = true ∧
    isDead2D [Sample.val 5, Sample.val 5] = true ∧
    isDeadCnt3D [Sample.val 5, Sample.val 5] = false ∧
    isDeadQual3D [Sample.val 5, Sample.val 5] = false ∧
    count_null_traces segyNT = 0 ∧
    (analyzeNullTraces segyNT).1 = 1 := by
  refine ⟨by with_unfolding_all decide, by with_unfolding_all decide, by decide,
    by decide, by with_unfolding_all decide, by with_unfolding_all decide⟩

/-- C4 (amended): only the 2D detector uses the full three-criteria test
(all-zero, all-NaN, or std below 1e-10); the 3D `_count_null_traces`
detector counts a trace dead iff it is all-zero or all-NaN, and the 3D
`_extract_trace_quality` detector iff it is all-zero. -/
theorem claim4_amended (t : List Sample) :
    (isDead2D t = true ↔
      (∀ s ∈ t, s = Sample.val 0) ∨ (∀ s ∈ t, s = Sample.nan) ∨
        ((∀ s ∈ t, s ≠ Sample.nan) ∧ t ≠ [] ∧ qvar (realVals t) < 1 / 10 ^ 20)) ∧
    (isDeadCnt3D t = true ↔ (∀ s ∈ t, s = Sample.val 0) ∨ (∀ s ∈ t, s = Sample.nan)) ∧
    (isDeadQual3D t = true ↔ ∀ s ∈ t, s = Sample.val 0) := by
  refine ⟨?_, ?_, ?_⟩ <;>
    simp [isDead2D, isDeadCnt3D, isDeadQual3D, Bool.or_eq_true, allZero_iff,
      allNaN_iff, stdLt_iff, or_assoc]

/-! ## Claim 3 — null-trace extrapolation -/

lemma collectTraces_length (s : SEGYHandle) :
    ∀ (l : List Nat) (ts : List (List Sample)),
      collectTraces s l = .ok ts → ts.length = l.length
  | [], ts, h => by
    simp only [collectTraces, Except.ok.injEq] at h
    simp [← h]
  | i :: is, ts, h => by
    unfold collectTraces at h
    cases h1 : s.traceE i with
    | error e => rw [h1] at h; exact absurd h (by simp)
    | ok t =>
      cases h2 : collectTraces s is with
      | error e => rw [h1, h2] at h; exact absurd h (by simp)
      | ok ts' =>
        rw [h1, h2] at h
        simp only [Except.ok.injEq] at h
        simp [← h, collectTraces_length s is ts' h2]

lemma sampled3DIdx_pos (n : Nat) (hn : 0 < n) : 0 < (sampled3DIdx n).length := by
  have hstep : 0 < max 1 (n / min 100 n) := lt_of_lt_of_le Nat.one_pos (le_max_left _ _)
  have h2 : 1 ≤ (n + max 1 (n / min 100 n) - 1) / max 1 (n / min 100 n) :=
    (Nat.one_le_div_iff hstep).mpr (by omega)
  simp only [sampled3DIdx, rangeStep, List.length_take, List.length_map, List.length_range]
  omega

/-- A 101-trace handle whose first 51 traces are dead, for the C3
counterexample: the sampled subset is the first 100 traces, the dead
fraction `f = 51/100`. -/
def segyC3 : SEGYHandle :=
  ⟨101, 0, none,
    fun i => .ok (if i < 51 then [Sample.val 0] else [Sample.val 1]),
    fun _ => .error "x", fun _ => .error "x", .error "x", .error "x"⟩

/-- C3 counterexample: with 101 traces of which the sampled hundred contain
51 dead ones, `f × tracecount = 51.51`, so the claimed `round` gives 52 —
but the code truncates (`int(...)`) and reports 51 dead / 50 valid. -/
theorem claim3_counterexample :
    extract_trace_quality segyC3 = [("Null/Dead Traces", "51"), ("Valid Traces", "50")] ∧
    round (((51 : ℚ) / 100) * 101) = 52 ∧ (51 : ℤ) ≠ 52 := by
  refine ⟨by decide, by with_unfolding_all decide, by decide⟩

/-- C3 (amended): the extrapolation is linear but TRUNCATES: the reported
estimated dead-trace count is the floor of (sampled dead fraction ×
tracecount) — `Nat` division below — the reported valid-trace count is
`tracecount - estimate`, and the two sum to `tracecount`; the 2D analyzer's
estimated count is the same floor with its own sample. -/
theorem claim3_amended (s : SEGYHandle) (ts ts2 : List (List Sample))
    (hN : 0 < s.tracecount)
    (h3 : collectTraces s (sampled3DIdx s.tracecount) = .ok ts)
    (h2 : collectTraces s (linspaceTo (s.tracecount - 1) (min 100 s.tracecount)) = .ok ts2) :
    extract_trace_quality s =
      [("Null/Dead Traces",
         toString ((ts.filter isDeadQual3D).length * s.tracecount / ts.length)),
       ("Valid Traces",
         toString (s.tracecount -
           (ts.filter isDeadQual3D).length * s.tracecount / ts.length))] ∧
    (ts.filter isDeadQual3D).length * s.tracecount / ts.length ≤ s.tracecount ∧
    (ts.filter isDeadQual3D).length * s.tracecount / ts.length +
      (s.tracecount - (ts.filter isDeadQual3D).length * s.tracecount / ts.length) =
      s.tracecount ∧
    (analyzeNullTraces s).1 =
      (ts2.filter isDead2D).length * s.tracecount / min 100 s.tracecount := by
  have hL : 0 < ts.length := by
    rw [collectTraces_length s _ ts h3]
    exact sampled3DIdx_pos _ hN
  have hz : (ts.filter isDeadQual3D).length ≤ ts.length := List.length_filter_le _ _
  have hest : (ts.filter isDeadQual3D).length * s.tracecount / ts.length ≤ s.tracecount := by
    calc (ts.filter isDeadQual3D).length * s.tracecount / ts.length
        ≤ ts.length * s.tracecount / ts.length :=
          Nat.div_le_div_right (Nat.mul_le_mul_right _ hz)
      _ = s.tracecount := Nat.mul_div_cancel_left _ hL
  refine ⟨?_, hest, by omega, ?_⟩
  · simp only [extract_trace_quality, h3]
    rw [if_neg (by omega)]
  · simp only [analyzeNullTraces, h2]
    rw [if_neg (by omega)]

/-- A 2-trace handle for the C3 witness: trace 0 is all-zero (dead), trace
1 is `[1, 2]` (alive for every detector). -/
def segyW3 : SEGYHandle :=
  ⟨2, 0, none,
    fun i => .ok (if i = 0 then [Sample.val 0, Sample.val 0] else [Sample.val 1, Sample.val 2]),
    fun _ => .error "x", fun _ => .error "x", .error "x", .error "x"⟩

/-- Witness for C3 (amended). -/
theorem claim3_witness :
    extract_trace_quality segyW3 = [("Null/Dead Traces", "1"), ("Valid Traces", "1")] ∧
    (analyzeNullTraces segyW3).1 = 1 := by
  have h := claim3_amended segyW3
    [[Sample.val 0, Sample.val 0], [Sample.val 1, Sample.val 2]]
    [[Sample.val 0, Sample.val 0], [Sample.val 1, Sample.val 2]]
    (by decide) rfl rfl
  exact ⟨h.1.trans (by decide), h.2.2.2.trans (by with_unfolding_all decide)⟩

/-! ## Claim 6 — sentinel-only curves -/

/-- C6: for a curve whose extraction succeeds, `_validate_curve_data`
reports `(False, "No valid data")` exactly when every sample equals the
null sentinel `-999.25`; as soon as one sample differs (NaN included) the
report is `(True, "Valid (min-max)")` over the non-sentinel data. -/
theorem claim6 (las : LASHandle) (name : String) (data : List Sample)
    (h : las.dataE name = .ok data) :
    (validateCurveData las name nullDefault = (false, "No valid data") ↔
      ∀ s ∈ data, s = Sample.val nullDefault) ∧
    ((∃ s ∈ data, s ≠ Sample.val nullDefault) →
      validateCurveData las name nullDefault =
        (true, "Valid (" ++ fmtS 2 (nanminL (validOf nullDefault data)) ++ "-" ++
          fmtS 2 (nanmaxL (validOf nullDefault data)) ++ ")")) := by
  have hres : validateCurveData las name nullDefault =
      (if (validOf nullDefault data).length = 0 then ((false : Bool), "No valid data")
       else (true, "Valid (" ++ fmtS 2 (nanminL (validOf nullDefault data)) ++ "-" ++
         fmtS 2 (nanmaxL (validOf nullDefault data)) ++ ")")) := by
    simp only [validateCurveData, h]
  by_cases hv : (validOf nullDefault data).length = 0
  · rw [hres, if_pos hv]
    refine ⟨⟨fun _ => (validOf_empty_iff _ _).mp hv, fun _ => rfl⟩, ?_⟩
    rintro ⟨x, hx, hne⟩
    exact absurd ((validOf_empty_iff _ _).mp hv x hx) hne
  · rw [hres, if_neg hv]
    refine ⟨⟨fun he => absurd he (by simp), ?_⟩, fun _ => rfl⟩
    intro hall
    exact absurd ((validOf_empty_iff _ _).mpr hall) hv

/-- Concrete handle for the C6 witness: the curve is entirely the
sentinel. -/
def lasW6 : LASHandle :=
  ⟨.ok [], fun _ => .ok [Sample.val nullDefault, Sample.val nullDefault]⟩

/-- Witness for C6. -/
theorem claim6_witness :
    validateCurveData lasW6 "GR" nullDefault = (false, "No valid data") :=
  (claim6 lasW6 "GR" [Sample.val nullDefault, Sample.val nullDefault] rfl).1.mpr
    (by simp)

/-! ## Claim 8 — percent_filled bounds -/

/-- C8: for a found curve with a nonempty sample array (and a successful
unit lookup, so the numeric path is taken), the reported `percent_filled`
is the 2-decimal rendering of `p = valid/total × 100`, with `0 ≤ p ≤ 100`,
and `p = 100` exactly when no sample equals the null sentinel. -/
theorem claim8 (las : LASHandle) (cs : List CurveMeta) (key : String) (info : CurveInfo)
    (fa : String) (data : List Sample) (c : CurveMeta)
    (h1 : find_curve_alias info.aliases (availOf cs) = some fa)
    (h2 : las.dataE fa = .ok data)
    (h3 : data ≠ [])
    (h4 : findCurveUp cs fa = some c) :
    (detailedFor las cs nullDefault (key, info)).2.percent_filled =
      fmtFixed 2 (percentFilledOf nullDefault data) ∧
    0 ≤ percentFilledOf nullDefault data ∧
    percentFilledOf nullDefault data ≤ 100 ∧
    (percentFilledOf nullDefault data = 100 ↔
      ∀ s ∈ data, s ≠ Sample.val nullDefault) := by
  have hlen : 0 < data.length := List.length_pos.mpr h3
  have hn : (0 : ℚ) < data.length := by exact_mod_cast hlen
  have hv : ((validOf nullDefault data).length : ℚ) ≤ (data.length : ℚ) := by
    exact_mod_cast List.length_filter_le _ _
  have hpf : percentFilledOf nullDefault data =
      ((validOf nullDefault data).length : ℚ) / (data.length : ℚ) * 100 := by
    simp [percentFilledOf, hlen]
  refine ⟨?_, ?_, ?_, ?_⟩
  · simp only [detailedFor, h1, h2, h4]
  · rw [hpf]; positivity
  · rw [hpf]
    have h1' : ((validOf nullDefault data).length : ℚ) / (data.length : ℚ) ≤ 1 :=
      (div_le_one hn).mpr hv
    linarith
  · have hiff : percentFilledOf nullDefault data = 100 ↔
        ((validOf nullDefault data).length : ℚ) = (data.length : ℚ) := by
      rw [hpf, div_mul_eq_mul_div, div_eq_iff (ne_of_gt hn)]
      constructor
      · intro h; linarith
      · intro h; linarith
    rw [hiff]
    exact Nat.cast_inj.trans (validOf_full_iff _ _)

/-- Concrete handle for the C8 witness. -/
def lasW8 : LASHandle := ⟨.ok [⟨"GR", some "API"⟩], fun _ => .ok [Sample.val 1]⟩

/-- Witness for C8. -/
theorem claim8_witness :
    (detailedFor lasW8 [⟨"GR", some "API"⟩] nullDefault
        ("GR", ⟨["GR"], "gamma"⟩)).2.percent_filled =
      fmtFixed 2 (percentFilledOf nullDefault [Sample.val 1]) ∧
    0 ≤ percentFilledOf nullDefault [Sample.val 1] ∧
    percentFilledOf nullDefault [Sample.val 1] ≤ 100 := by
  have h := claim8 lasW8 [⟨"GR", some "API"⟩] "GR" ⟨["GR"], "gamma"⟩ "GR"
    [Sample.val 1] ⟨"GR", some "API"⟩ (by decide) rfl (by decide) (by decide)
  exact ⟨h.1, h.2.1, h.2.2.1⟩

/-! ## Claim 10 — NaN counts as valid data -/

/-- C10: the null mask removes only exact sentinel values, so an all-NaN
(nonempty, resolved) curve is reported with status "Y" by the validation
loop and `percent_filled = "100.00"` by the detailed-info loop. -/
theorem claim10 (las : LASHandle) (cs : List CurveMeta) (key : String) (info : CurveInfo)
    (fa : String) (data : List Sample) (c : CurveMeta)
    (h1 : find_curve_alias info.aliases (availOf cs) = some fa)
    (h2 : las.dataE fa = .ok data)
    (h3 : data ≠ [])
    (h4 : ∀ s ∈ data, s = Sample.nan)
    (h5 : findCurveUp cs fa = some c) :
    (validateEntryFor las (availOf cs) nullDefault (key, info)).2.status = "Y" ∧
    (detailedFor las cs nullDefault (key, info)).2.percent_filled = "100.00" := by
  have hfull : validOf nullDefault data = data :=
    List.filter_eq_self.mpr fun s hs =>
      (sampleNe_iff s nullDefault).mpr (by rw [h4 s hs]; simp)
  have hlen : 0 < data.length := List.length_pos.mpr h3
  have hne : ¬(validOf nullDefault data).length = 0 := by
    rw [hfull]; omega
  have hpf : percentFilledOf nullDefault data = 100 := by
    have hn : ((data.length : ℚ)) ≠ 0 := by
      exact_mod_cast Nat.pos_iff_ne_zero.mp hlen
    simp [percentFilledOf, hlen, hfull, div_mul_eq_mul_div, div_eq_iff hn]
    ring
  constructor
  · simp only [validateEntryFor, h1, validateCurveData, h2]
    rw [if_neg hne]
    simp
  · simp only [detailedFor, h1, h2, h5, hpf]
    with_unfolding_all decide

/-- Concrete handle for the C10 witness: two NaN samples. -/
def lasW10 : LASHandle :=
  ⟨.ok [⟨"GR", some "API"⟩], fun _ => .ok [Sample.nan, Sample.nan]⟩

/-- Witness for C10. -/
theorem claim10_witness :
    (validateEntryFor lasW10 (availOf [⟨"GR", some "API"⟩]) nullDefault
        ("GR", ⟨["GR"], "gamma"⟩)).2.status = "Y" ∧
    (detailedFor lasW10 [⟨"GR", some "API"⟩] nullDefault
        ("GR", ⟨["GR"], "gamma"⟩)).2.percent_filled = "100.00" :=
  claim10 lasW10 [⟨"GR", some "API"⟩] "GR" ⟨["GR"], "gamma"⟩ "GR"
    [Sample.nan, Sample.nan] ⟨"GR", some "API"⟩ (by decide) rfl (by decide)
    (by decide) (by decide)

/-! ## Claim 9 — endianness reporting asymmetry -/

/-- C9: with readable binary-header fields, the 2D validator reports
"Little Endian" iff the raw sample-interval field lies in `[100, 100000]`
and "Big Endian (possible)" otherwise, while the 3D validator reports the
fixed string "Big Endian (SEG-Y standard)" with no inference. -/
theorem claim9 (s s3 : SEGYHandle) (fc sc iv f3 : Int)
    (h1 : s.binE .Format = .ok fc) (h2 : s.binE .SortingCode = .ok sc)
    (h3 : s.binE .Interval = .ok iv) (h4 : s3.formatE = .ok f3) :
    (getBinaryHeaderInfo s).endian =
      (if 100 ≤ iv ∧ iv ≤ 100000 then "Little Endian" else "Big Endian (possible)") ∧
    List.lookup "Endian Type" (extract_binary_header_3d s3) =
      some "Big Endian (SEG-Y standard)" := by
  constructor
  · simp only [getBinaryHeaderInfo, h1, h2, h3]
  · simp only [extract_binary_header_3d, h4]
    rfl

/-- Concrete handle for the C9 witness (interval 500 µs, format code 5). -/
def segyW9 : SEGYHandle :=
  ⟨1, 0, none, fun _ => .error "x", fun _ => .error "x",
    fun f => .ok (match f with | .Interval => 500 | _ => 1), .ok 5, .error "x"⟩

/-- Witness for C9. -/
theorem claim9_witness :
    (getBinaryHeaderInfo segyW9).endian =
      (if (100 : Int) ≤ 500 ∧ (500 : Int) ≤ 100000 then "Little Endian"
       else "Big Endian (possible)") ∧
    List.lookup "Endian Type" (extract_binary_header_3d segyW9) =
      some "Big Endian (SEG-Y standard)" :=
  claim9 segyW9 segyW9 1 1 500 5 rfl rfl rfl rfl

/-! ## Claim 7 — sinuosity and shape bands -/

lemma ptDist_eq_abs (p q : ℚ × ℚ) : ptDist p q = Complex.abs (toC p - toC q) := by
  rw [ptDist, Complex.abs_apply]
  congr 1
  simp only [Complex.normSq_apply, Complex.sub_re, Complex.sub_im, toC]
  push_cast
  ring

lemma ptDist_self (p : ℚ × ℚ) : ptDist p p = 0 := by
  simp [ptDist]

lemma ptDist_triangle (p q r : ℚ × ℚ) : ptDist p r ≤ ptDist p q + ptDist q r := by
  rw [ptDist_eq_abs, ptDist_eq_abs, ptDist_eq_abs]
  exact Complex.abs.sub_le (toC p) (toC q) (toC r)

lemma straight_le_path : ∀ ps : List (ℚ × ℚ), straightDistOf ps ≤ pathLenOf ps
  | [] => by simp [straightDistOf, pathLenOf, ptDist_self]
  | [p] => by simp [straightDistOf, pathLenOf, ptDist_self]
  | p :: q :: rest => by
    have ih := straight_le_path (q :: rest)
    have tri := ptDist_triangle p q (rest.getLastD q)
    have hstep : straightDistOf (q :: rest) = ptDist q (rest.getLastD q) := by
      unfold straightDistOf
      rw [List.headD_cons, List.getLastD_cons]
    calc straightDistOf (p :: q :: rest) = ptDist p (rest.getLastD q) := by
          unfold straightDistOf
          rw [List.headD_cons, List.getLastD_cons, List.getLastD_cons]
      _ ≤ ptDist p q + ptDist q (rest.getLastD q) := tri
      _ ≤ ptDist p q + pathLenOf (q :: rest) := by
          rw [hstep] at ih; linarith
      _ = pathLenOf (p :: q :: rest) := by rw [pathLenOf]

/-- C7: over any collected coordinate sample of at least two points, the
computed sinuosity is at least 1 (total path length dominates the
straight-line distance; 1.0 exactly when the straight distance vanishes),
and the classification bands are inclusive on their lower bounds:
sinuosity exactly 1.05 classifies as "Nearly Straight", not "Straight". -/
theorem claim7 (ps : List (ℚ × ℚ)) (h : 2 ≤ ps.length) :
    1 ≤ sinuosityOf ps ∧ shapeOf (1.05 : ℝ) = "Nearly Straight" := by
  constructor
  · unfold sinuosityOf
    split
    · next hpos => exact (one_le_div hpos).mpr (straight_le_path ps)
    · exact le_refl 1
  · unfold shapeOf
    rw [if_neg (lt_irrefl _), if_pos (by norm_num)]

/-- Witness for C7. -/
theorem claim7_witness :
    1 ≤ sinuosityOf [((0 : ℚ), (0 : ℚ)), (3, 4)] ∧
    shapeOf (1.05 : ℝ) = "Nearly Straight" :=
  claim7 [((0 : ℚ), (0 : ℚ)), (3, 4)] (by decide)

end EDC
